import Mathlib

/-!
Verification of the redstone-computer-utilities client library
(`src/lib.rs`, `src/datatype.rs`): a WebSocket client that multiplexes
host-pushed events and client-issued API request/result pairs over one
ordered text channel.

The embedding works at the level of parsed JSON values: a `Json` value
stands for the text content of a frame (`serde_json` parses the string to
the same tree before the typed deserializers run, and a text frame that is
not valid JSON fails both typed parses exactly as a `Json` matching
neither shape does).  The async control flow of the source is sequential
(a single task; every await is a nested call), so it is embedded as
recursive functions threading the mutable state (`Context`) and the list
of remaining inbound frames, with a numeric fuel argument to make the
mutual recursion structural; `none` means the fuel ran out, never a
behaviour of the program.  User callbacks are arbitrary code; the claims
only depend on their results, so they are modelled by their result values
(`on_init : Option (Except ErrorCode Unit)`,
`on_execute : Option (List Json → Except ErrorCode Int)`), and the trace
records each invocation as instrumentation so ordering properties can be
stated.
-/

namespace Rcu

/-- JSON values, the parse tree `serde_json` produces from a text frame.
Numbers are modelled as `Int`: every number the wire types carry is an
`i32`/`i64` and no arithmetic is ever performed on one. -/
inductive Json where
  | null
  | bool (b : Bool)
  | num (n : Int)
  | str (s : String)
  | arr (elems : List Json)
  | obj (fields : List (String × Json))

/-- Field lookup in a JSON object (first occurrence), as the serde
deserializers see maps. On a non-object it fails. -/
def Json.getField : Json → String → Option Json
  | .obj fields, k => fields.lookup k
  | _, _ => none

/-- `ErrorCode` of `datatype.rs`: `serde_repr` i32 codes -1..-7. -/
inductive ErrorCode where
  | GeneralError
  | ArgumentInvalid
  | NameIllegal
  | NameExists
  | NameNotFound
  | InternalError
  | ChunkUnloaded
deriving DecidableEq, Repr

/-- The `#[repr(i32)]` discriminants of `ErrorCode`. -/
def ErrorCode.code : ErrorCode → Int
  | .GeneralError => -1
  | .ArgumentInvalid => -2
  | .NameIllegal => -3
  | .NameExists => -4
  | .NameNotFound => -5
  | .InternalError => -6
  | .ChunkUnloaded => -7

/-- `LogLevel` of `datatype.rs`. -/
inductive LogLevel where
  | Debug
  | Info
  | Warn
  | Error
  | Fatal
deriving DecidableEq, Repr

/-- `BlockPos(i32, i32, i32, String)`: a tuple struct, serialized as a
4-element JSON array. -/
structure BlockPos where
  x : Int
  y : Int
  z : Int
  dimension : String
deriving DecidableEq, Repr

/-- `BlockUpdateType` of `datatype.rs`. -/
inductive BlockUpdateType where
  | NeighborUpdate
  | PostPlacement
  | Any
deriving DecidableEq, Repr

/-- `AlarmAt` of `datatype.rs`. -/
inductive AlarmAt where
  | Start
  | End
deriving DecidableEq, Repr

/-- `InterfaceChangeParam { name: String }`. -/
structure InterfaceChangeParam where
  name : String
deriving DecidableEq, Repr

/-- `BlockUpdateParam { pos: BlockPos, type_: BlockUpdateType }` (the
second field is renamed to `"type"` on the wire). -/
structure BlockUpdateParam where
  pos : BlockPos
  type_ : BlockUpdateType
deriving DecidableEq, Repr

/-- `AlarmParam { gametime: i64, at: AlarmAt }`. -/
structure AlarmParam where
  gametime : Int
  at_ : AlarmAt
deriving DecidableEq, Repr

/-- `SubscribeParam` of `datatype.rs`: tagged `name`, content `param`. -/
inductive SubscribeParam where
  | ScriptRun
  | InterfaceChange (param : InterfaceChangeParam)
  | BlockUpdate (param : BlockUpdateParam)
  | Alarm (param : AlarmParam)
deriving DecidableEq, Repr

/-- `ApiRequest` of `datatype.rs`: tagged `api`, content `param`,
camelCase variant names on the wire. -/
inductive ApiRequest where
  | Subscribe (param : SubscribeParam)
  | ReadInterface (name : String)
  | WriteInterface (name : String) (value : String)
  | QueryGametime
  | ExecuteCommand (command : String)
  | Log (message : String) (level : LogLevel)
deriving DecidableEq, Repr

/-- `ApiResult` of `datatype.rs`: `#[serde(untagged)]` over
`Ok(serde_json::Value)` and `Err(ErrorCode)`. -/
inductive ApiResult where
  | Ok (value : Json)
  | Err (code : ErrorCode)

/-- `ApiResult::into_result`. -/
def ApiResult.into_result : ApiResult → Except ErrorCode Json
  | .Ok v => .ok v
  | .Err c => .error c

/-- `ApiResultWrapper { result: ApiResult }`. -/
structure ApiResultWrapper where
  result : ApiResult

/-- `ScriptRunContent { argument: Vec<serde_json::Value> }`. -/
structure ScriptRunContent where
  argument : List Json

/-- `InterfaceChangeContent { previous, current }`. -/
structure InterfaceChangeContent where
  previous : String
  current : String
deriving DecidableEq, Repr

/-- `Event` of `datatype.rs`: internally tagged by the `"event"` field,
camelCase variant names. -/
inductive Event where
  | ScriptInitialize
  | ScriptRun (content : ScriptRunContent)
  | InterfaceChange (param : InterfaceChangeParam) (content : InterfaceChangeContent)
  | BlockUpdate (param : BlockUpdateParam)
  | Alarm (param : AlarmParam)

/-- `EventResponse` of `datatype.rs`: `#[serde(untagged)]` over
`Ok(Value)`, `ScriptRun { result: i32 }` and `Err(ErrorCode)`. -/
inductive EventResponse where
  | Ok (value : Json)
  | ScriptRun (result : Int)
  | Err (code : ErrorCode)

/-- `EventResponse::empty()` = `Ok(json!({}))`. -/
def EventResponse.empty : EventResponse := .Ok (.obj [])

/-- `Error` of `lib.rs` (the library's session-fatal error enum).
`WebsocketError`, `SerializeFailed` carry source-library payloads with no
structure the claims use. -/
inductive Error where
  | WebsocketError
  | UnexpectedApiResult
  | InvalidServerMessage
  | UnexpectedDisconnect
  | InitializeFailed
  | SerializeFailed
  | ErrorCode (code : ErrorCode)
deriving DecidableEq, Repr

/-- `EventOrApiResult` of `lib.rs`. -/
inductive EventOrApiResult where
  | Event (evt : Event)
  | ApiResult (res : ApiResultWrapper)

/-! ## Wire encoding (the `Serialize` derives of `datatype.rs`) -/

/-- `LogLevel` serializes as its camelCase name. -/
def LogLevel.toJson : LogLevel → Json
  | .Debug => .str "debug"
  | .Info => .str "info"
  | .Warn => .str "warn"
  | .Error => .str "error"
  | .Fatal => .str "fatal"

/-- `BlockPos` is a tuple struct: a 4-element array. -/
def BlockPos.toJson (p : BlockPos) : Json :=
  .arr [.num p.x, .num p.y, .num p.z, .str p.dimension]

/-- `BlockUpdateType` serializes as its camelCase name. -/
def BlockUpdateType.toJson : BlockUpdateType → Json
  | .NeighborUpdate => .str "neighborUpdate"
  | .PostPlacement => .str "postPlacement"
  | .Any => .str "any"

/-- `AlarmAt` serializes as its camelCase name. -/
def AlarmAt.toJson : AlarmAt → Json
  | .Start => .str "start"
  | .End => .str "end"

def InterfaceChangeParam.toJson (p : InterfaceChangeParam) : Json :=
  .obj [("name", .str p.name)]

/-- The `type_` field is serialized under the name `"type"`. -/
def BlockUpdateParam.toJson (p : BlockUpdateParam) : Json :=
  .obj [("pos", p.pos.toJson), ("type", p.type_.toJson)]

def AlarmParam.toJson (p : AlarmParam) : Json :=
  .obj [("gametime", .num p.gametime), ("at", p.at_.toJson)]

/-- `SubscribeParam`: adjacently tagged, tag `"name"`, content `"param"`. -/
def SubscribeParam.toJson : SubscribeParam → Json
  | .ScriptRun => .obj [("name", .str "scriptRun"), ("param", .obj [])]
  | .InterfaceChange p => .obj [("name", .str "interfaceChange"), ("param", p.toJson)]
  | .BlockUpdate p => .obj [("name", .str "blockUpdate"), ("param", p.toJson)]
  | .Alarm p => .obj [("name", .str "alarm"), ("param", p.toJson)]

/-- `ApiRequest`: adjacently tagged, tag `"api"`, content `"param"`. -/
def ApiRequest.toJson : ApiRequest → Json
  | .Subscribe p => .obj [("api", .str "subscribe"), ("param", p.toJson)]
  | .ReadInterface name => .obj [("api", .str "readInterface"), ("param", .obj [("name", .str name)])]
  | .WriteInterface name value =>
    .obj [("api", .str "writeInterface"), ("param", .obj [("name", .str name), ("value", .str value)])]
  | .QueryGametime => .obj [("api", .str "queryGametime"), ("param", .obj [])]
  | .ExecuteCommand command => .obj [("api", .str "executeCommand"), ("param", .obj [("command", .str command)])]
  | .Log message level => .obj [("api", .str "log"), ("param", .obj [("message", .str message), ("level", level.toJson)])]

/-- `ErrorCode` (`serde_repr`) serializes as its i32 discriminant. -/
def ErrorCode.toJson (c : ErrorCode) : Json := .num c.code

/-- `Event`: internally tagged by `"event"`; variant fields sit beside the
tag. -/
def Event.toJson : Event → Json
  | .ScriptInitialize => .obj [("event", .str "scriptInitialize")]
  | .ScriptRun c =>
    .obj [("event", .str "scriptRun"), ("content", .obj [("argument", .arr c.argument)])]
  | .InterfaceChange p c =>
    .obj [("event", .str "interfaceChange"), ("param", p.toJson),
      ("content", .obj [("previous", .str c.previous), ("current", .str c.current)])]
  | .BlockUpdate p => .obj [("event", .str "blockUpdate"), ("param", p.toJson)]
  | .Alarm p => .obj [("event", .str "alarm"), ("param", p.toJson)]

/-- `EventResponse` is `#[serde(untagged)]`: each variant serializes as
its bare content. -/
def EventResponse.toJson : EventResponse → Json
  | .Ok v => v
  | .ScriptRun result => .obj [("result", .num result)]
  | .Err code => code.toJson

/-- `EventResponseWrapper { finish: EventResponse }`. -/
def eventResponseWrapperToJson (resp : EventResponse) : Json :=
  .obj [("finish", resp.toJson)]

/-- `ApiResult` is untagged: bare payload or bare error code. -/
def ApiResult.toJson : ApiResult → Json
  | .Ok v => v
  | .Err code => code.toJson

def ApiResultWrapper.toJson (w : ApiResultWrapper) : Json :=
  .obj [("result", w.result.toJson)]

/-! ## Wire decoding (the `Deserialize` derives of `datatype.rs`)

Each `fromJson` mirrors what the derived serde deserializer accepts from
a `serde_json` parse tree: required fields are looked up by name, unknown
fields are ignored (serde's default), and enum tags are matched by their
camelCase names. -/

def LogLevel.fromJson : Json → Option LogLevel
  | .str "debug" => some .Debug
  | .str "info" => some .Info
  | .str "warn" => some .Warn
  | .str "error" => some .Error
  | .str "fatal" => some .Fatal
  | _ => none

def BlockPos.fromJson : Json → Option BlockPos
  | .arr [.num x, .num y, .num z, .str dimension] => some ⟨x, y, z, dimension⟩
  | _ => none

def BlockUpdateType.fromJson : Json → Option BlockUpdateType
  | .str "neighborUpdate" => some .NeighborUpdate
  | .str "postPlacement" => some .PostPlacement
  | .str "any" => some .Any
  | _ => none

def AlarmAt.fromJson : Json → Option AlarmAt
  | .str "start" => some .Start
  | .str "end" => some .End
  | _ => none

def InterfaceChangeParam.fromJson (j : Json) : Option InterfaceChangeParam :=
  match j.getField "name" with
  | some (.str name) => some ⟨name⟩
  | _ => none

def BlockUpdateParam.fromJson (j : Json) : Option BlockUpdateParam := do
  let pos ← BlockPos.fromJson (← j.getField "pos")
  let type_ ← BlockUpdateType.fromJson (← j.getField "type")
  pure ⟨pos, type_⟩

def AlarmParam.fromJson (j : Json) : Option AlarmParam :=
  match j.getField "gametime", (j.getField "at").bind AlarmAt.fromJson with
  | some (.num gametime), some at_ => some ⟨gametime, at_⟩
  | _, _ => none

def SubscribeParam.fromJson (j : Json) : Option SubscribeParam :=
  match j.getField "name", j.getField "param" with
  | some (.str "scriptRun"), some _ => some .ScriptRun
  | some (.str "interfaceChange"), some p => (InterfaceChangeParam.fromJson p).map .InterfaceChange
  | some (.str "blockUpdate"), some p => (BlockUpdateParam.fromJson p).map .BlockUpdate
  | some (.str "alarm"), some p => (AlarmParam.fromJson p).map .Alarm
  | _, _ => none

def ApiRequest.fromJson (j : Json) : Option ApiRequest :=
  match j.getField "api", j.getField "param" with
  | some (.str "subscribe"), some p => (SubscribeParam.fromJson p).map .Subscribe
  | some (.str "readInterface"), some p =>
    match p.getField "name" with
    | some (.str name) => some (.ReadInterface name)
    | _ => none
  | some (.str "writeInterface"), some p =>
    match p.getField "name", p.getField "value" with
    | some (.str name), some (.str value) => some (.WriteInterface name value)
    | _, _ => none
  | some (.str "queryGametime"), some (.obj _) => some .QueryGametime
  | some (.str "executeCommand"), some p =>
    match p.getField "command" with
    | some (.str command) => some (.ExecuteCommand command)
    | _ => none
  | some (.str "log"), some p =>
    match p.getField "message", (p.getField "level").bind LogLevel.fromJson with
    | some (.str message), some level => some (.Log message level)
    | _, _ => none
  | _, _ => none

def ScriptRunContent.fromJson (j : Json) : Option ScriptRunContent :=
  match j.getField "argument" with
  | some (.arr argument) => some ⟨argument⟩
  | _ => none

def InterfaceChangeContent.fromJson (j : Json) : Option InterfaceChangeContent :=
  match j.getField "previous", j.getField "current" with
  | some (.str previous), some (.str current) => some ⟨previous, current⟩
  | _, _ => none

/-- `Event` deserialization: dispatch on the `"event"` tag, then read the
variant's fields from the same object. -/
def Event.fromJson (j : Json) : Option Event :=
  match j.getField "event" with
  | some (.str "scriptInitialize") => some .ScriptInitialize
  | some (.str "scriptRun") =>
    ((j.getField "content").bind ScriptRunContent.fromJson).map .ScriptRun
  | some (.str "interfaceChange") =>
    match (j.getField "param").bind InterfaceChangeParam.fromJson,
        (j.getField "content").bind InterfaceChangeContent.fromJson with
    | some p, some c => some (.InterfaceChange p c)
    | _, _ => none
  | some (.str "blockUpdate") =>
    ((j.getField "param").bind BlockUpdateParam.fromJson).map .BlockUpdate
  | some (.str "alarm") =>
    ((j.getField "param").bind AlarmParam.fromJson).map .Alarm
  | _ => none

/-- `ApiResult` deserialization.  The derived untagged deserializer tries
`Ok(serde_json::Value)` first, and a `Value` deserializes from any JSON,
so this never fails and the `Err` variant is never produced by parsing. -/
def ApiResult.fromJson (j : Json) : Option ApiResult :=
  some (.Ok j)

/-- `ApiResultWrapper` deserialization: requires the `"result"` field. -/
def ApiResultWrapper.fromJson (j : Json) : Option ApiResultWrapper :=
  match j.getField "result" with
  | some r => (ApiResult.fromJson r).map (⟨·⟩)
  | none => none

/-- `EventResponse` deserialization.  Untagged with `Ok(Value)` declared
first, which accepts any JSON, so the `ScriptRun` and `Err` variants are
never produced by parsing. -/
def EventResponse.fromJson (j : Json) : Option EventResponse :=
  some (.Ok j)

/-! ## The session interpreter (`lib.rs`)

Inbound traffic is a list of WebSocket frames; a `text` frame carries its
parsed JSON content (a text frame whose content is not valid JSON fails
both typed parses, exactly like a `Json` that matches neither shape, e.g.
`Json.null`).  The `ctrl_c` interrupt and the stream ending both make
`try_next_message` in the source return `Ok(None)`; the embedding reaches
that case at the end of the frame list or at a `close` frame.  Raw
`Frame`/`Ping`/`Pong` control messages are skipped by the source loop;
`ping`/`pong` stand for all of them. -/

inductive Frame where
  | text (j : Json)
  | binary
  | close
  | ping
  | pong

/-- Observable actions of one session, in order: frames written to the
socket (`send`), the closing handshake (`close`, `flush`), and — as
instrumentation for stating callback-ordering properties — each callback
invocation (`callInit`, `callExecute args`). -/
inductive Action where
  | send (j : Json)
  | close
  | flush
  | callInit
  | callExecute (args : List Json)

/-- `Script` of `lib.rs`: connection configuration plus the callback
registry.  The callbacks are arbitrary user code; they are modelled by
their result values (`on_init` is `FnOnce`, consumed on use;
`on_execute` is an `Fn` from the arguments). -/
structure Script where
  name : String
  description : String
  server : String
  on_init : Option (Except ErrorCode Unit)
  on_execute : Option (List Json → Except ErrorCode Int)

/-- `Context` of `lib.rs`: the session handle, holding the script (whose
`on_init` slot is mutable) and, standing for the socket write half, the
trace of actions performed so far. -/
structure Context where
  script : Script
  trace : List Action

/-- `Context::send`: write one text frame. -/
def Context.send (ctx : Context) (j : Json) : Context :=
  { ctx with trace := ctx.trace ++ [Action.send j] }

/-- `Context::send_event_response`: wrap in `EventResponseWrapper` and
send.  (`serde_json::to_string` cannot fail on these types, so the
`SerializeFailed` arm of the source is not reachable here.) -/
def Context.send_event_response (ctx : Context) (resp : EventResponse) : Context :=
  ctx.send (eventResponseWrapperToJson resp)

/-- `self.script.lock().await.on_init.take()` when the slot is occupied:
empty the single-use slot and record the invocation. -/
def Context.take_on_init (ctx : Context) : Context :=
  { ctx with script := { ctx.script with on_init := none },
             trace := ctx.trace ++ [Action.callInit] }

/-- Record an `on_execute` invocation (instrumentation only). -/
def Context.mark_execute (ctx : Context) (args : List Json) : Context :=
  { ctx with trace := ctx.trace ++ [Action.callExecute args] }

/-- The tail of the `ScriptInitialize` arm of `Context::handle_event`
(source lines 205–214), entered once the auto-subscription (if any) has
completed: take and run the one-shot init callback; an `Err` sends an
`EventResponse` carrying the code and fails the session with
`InitializeFailed`; otherwise send the empty-success `EventResponse`. -/
def Context.init_finish (ctx : Context) (frames : List Frame) :
    Context × List Frame × Except Error Unit :=
  match ctx.script.on_init with
  | some result =>
    match result with
    | .error e =>
      (ctx.take_on_init.send_event_response (.Err e), frames, .error .InitializeFailed)
    | .ok () => (ctx.take_on_init.send_event_response .empty, frames, .ok ())
  | none => (ctx.send_event_response .empty, frames, .ok ())

/-- `Context::try_next_message`: skip control frames, yield the next text
frame's content, fail on a binary frame, end on close / stream end /
interrupt.  Returns the remaining frames alongside the source's
`Result<Option<String>>`. -/
def try_next_message : List Frame → List Frame × Except Error (Option Json)
  | [] => ([], .ok none)
  | .text j :: rest => (rest, .ok (some j))
  | .binary :: rest => (rest, .error .InvalidServerMessage)
  | .close :: rest => (rest, .ok none)
  | .ping :: rest => try_next_message rest
  | .pong :: rest => try_next_message rest

/-- `Context::try_next_event_or_api_result`: classify the next text frame
by attempting the `Event` parse first, then the `ApiResultWrapper` parse;
if both fail the session fails with `InvalidServerMessage`. -/
def try_next_event_or_api_result (frames : List Frame) :
    List Frame × Except Error (Option EventOrApiResult) :=
  match try_next_message frames with
  | (rest, .error e) => (rest, .error e)
  | (rest, .ok none) => (rest, .ok none)
  | (rest, .ok (some j)) =>
    match Event.fromJson j with
    | some evt => (rest, .ok (some (.Event evt)))
    | none =>
      match ApiResultWrapper.fromJson j with
      | some res => (rest, .ok (some (.ApiResult res)))
      | none => (rest, .error .InvalidServerMessage)

/-- `Context::try_next_event`: in the main loop every frame must be an
event; an `ApiResult` there is the `UnexpectedApiResult` protocol
violation. -/
def try_next_event (frames : List Frame) : List Frame × Except Error (Option Event) :=
  match try_next_event_or_api_result frames with
  | (rest, .ok (some (.Event evt))) => (rest, .ok (some evt))
  | (rest, .ok (some (.ApiResult _))) => (rest, .error .UnexpectedApiResult)
  | (rest, .ok none) => (rest, .ok none)
  | (rest, .error e) => (rest, .error e)

/-! The four awaiting functions of `lib.rs` are mutually recursive (an
event handled while a request waits may itself issue a request).  Each
takes a fuel argument and consumes one unit per call layer; `none` means
the fuel ran out and says nothing about the program.  Every genuine loop
iteration consumes at least one inbound frame, so any fuel of at least
twice the frame count (plus a constant) is enough. -/

mutual

/-- `Context::handle_event`: the event dispatcher. -/
def Context.handle_event : Nat → Context → Event → List Frame →
    Option (Context × List Frame × Except Error Unit)
  | 0, _, _, _ => none
  | fuel + 1, ctx, evt, frames =>
    match evt with
    | .ScriptInitialize =>
      match (if ctx.script.on_execute.isSome then Context.subscribe_run fuel ctx frames
        else some (ctx, frames, .ok ())) with
      | none => none
      | some (ctx, frames, .error e) => some (ctx, frames, .error e)
      | some (ctx, frames, .ok ()) => some (ctx.init_finish frames)
    | .ScriptRun content =>
      match ctx.script.on_execute with
      | some callback =>
        match callback content.argument with
        | .ok result =>
          some ((ctx.mark_execute content.argument).send_event_response
            (.ScriptRun result), frames, .ok ())
        | .error e =>
          some ((ctx.mark_execute content.argument).send_event_response
            (.Err e), frames, .ok ())
      | none => some (ctx.send_event_response (.ScriptRun 0), frames, .ok ())
    | .InterfaceChange _ _ => some (ctx, frames, .ok ())
    | .BlockUpdate _ => some (ctx, frames, .ok ())
    | .Alarm _ => some (ctx, frames, .ok ())

/-- `Context::subscribe_run` =
`send_api_request_discard_result(Subscribe(ScriptRun))`: the payload of
the result is dropped. -/
def Context.subscribe_run : Nat → Context → List Frame →
    Option (Context × List Frame × Except Error Unit)
  | 0, _, _ => none
  | fuel + 1, ctx, frames =>
    match Context.send_api_request fuel ctx (.Subscribe .ScriptRun) frames with
    | none => none
    | some (ctx, frames, .error e) => some (ctx, frames, .error e)
    | some (ctx, frames, .ok _) => some (ctx, frames, .ok ())

/-- `Context::send_api_request`: send the request, then wait in
`send_api_request_wait`.  The source finally runs the payload through
`serde_json::from_value::<T>`; the embedding returns the raw payload
(`T = Value`), which is what `subscribe_run` uses. -/
def Context.send_api_request : Nat → Context → ApiRequest → List Frame →
    Option (Context × List Frame × Except Error Json)
  | 0, _, _, _ => none
  | fuel + 1, ctx, req, frames =>
    Context.send_api_request_wait fuel (ctx.send req.toJson) frames

/-- The `loop` inside `Context::send_api_request`: an `ApiResult` settles
the call, an `Event` is dispatched inline by `handle_event` before
waiting again, the channel ending is `UnexpectedDisconnect`. -/
def Context.send_api_request_wait : Nat → Context → List Frame →
    Option (Context × List Frame × Except Error Json)
  | 0, _, _ => none
  | fuel + 1, ctx, frames =>
    match try_next_event_or_api_result frames with
    | (rest, .error e) => some (ctx, rest, .error e)
    | (rest, .ok none) => some (ctx, rest, .error .UnexpectedDisconnect)
    | (rest, .ok (some (.ApiResult res))) =>
      match res.result.into_result with
      | .ok value => some (ctx, rest, .ok value)
      | .error code => some (ctx, rest, .error (.ErrorCode code))
    | (rest, .ok (some (.Event evt))) =>
      match Context.handle_event fuel ctx evt rest with
      | none => none
      | some (ctx, rest, .error e) => some (ctx, rest, .error e)
      | some (ctx, rest, .ok ()) => Context.send_api_request_wait fuel ctx rest

/-- `Context::main_loop`: dispatch events until the stream ends; errors
propagate. -/
def Context.main_loop : Nat → Context → List Frame →
    Option (Context × List Frame × Except Error Unit)
  | 0, _, _ => none
  | fuel + 1, ctx, frames =>
    match try_next_event frames with
    | (rest, .error e) => some (ctx, rest, .error e)
    | (rest, .ok none) => some (ctx, rest, .ok ())
    | (rest, .ok (some evt)) =>
      match Context.handle_event fuel ctx evt rest with
      | none => none
      | some (ctx, rest, .error e) => some (ctx, rest, .error e)
      | some (ctx, rest, .ok ()) => Context.main_loop fuel ctx rest

end

/-- `Script::run` after the connection is established (URL construction
and `connect_async` are out of the embedding's scope): drive `main_loop`;
on `Ok` close and flush the socket; on `Err` the `?` operator returns the
error at once, so no close/flush actions are performed on that path. -/
def Script.run (script : Script) (frames : List Frame) (fuel : Nat) :
    Option (Context × Except Error Unit) :=
  match Context.main_loop fuel ⟨script, []⟩ frames with
  | none => none
  | some (ctx, _, .error e) => some (ctx, .error e)
  | some (ctx, _, .ok ()) =>
    some ({ ctx with trace := ctx.trace ++ [Action.close, Action.flush] }, .ok ())

/-! ## Encode/decode round-trip lemmas -/

theorem blockPos_fromJson_toJson (p : BlockPos) : BlockPos.fromJson p.toJson = some p := rfl

theorem interfaceChangeParam_fromJson_toJson (p : InterfaceChangeParam) :
    InterfaceChangeParam.fromJson p.toJson = some p := rfl

theorem blockUpdateParam_fromJson_toJson (p : BlockUpdateParam) :
    BlockUpdateParam.fromJson p.toJson = some p := by
  obtain ⟨pos, ty⟩ := p; cases ty <;> rfl

theorem alarmParam_fromJson_toJson (p : AlarmParam) :
    AlarmParam.fromJson p.toJson = some p := by
  obtain ⟨g, a⟩ := p; cases a <;> rfl

theorem logLevel_fromJson_toJson (l : LogLevel) : LogLevel.fromJson l.toJson = some l := by
  cases l <;> rfl

theorem subscribeParam_fromJson_toJson (p : SubscribeParam) :
    SubscribeParam.fromJson p.toJson = some p := by
  cases p with
  | ScriptRun => rfl
  | InterfaceChange q => rfl
  | BlockUpdate q => obtain ⟨pos, ty⟩ := q; cases ty <;> rfl
  | Alarm q => obtain ⟨g, a⟩ := q; cases a <;> rfl

theorem apiRequest_fromJson_toJson (req : ApiRequest) :
    ApiRequest.fromJson req.toJson = some req := by
  cases req with
  | Subscribe p =>
    have h : ApiRequest.fromJson (ApiRequest.toJson (.Subscribe p)) =
        (SubscribeParam.fromJson p.toJson).map .Subscribe := rfl
    rw [h, subscribeParam_fromJson_toJson]; rfl
  | ReadInterface name => rfl
  | WriteInterface name value => rfl
  | QueryGametime => rfl
  | ExecuteCommand command => rfl
  | Log message level => cases level <;> rfl

theorem event_fromJson_toJson (evt : Event) : Event.fromJson evt.toJson = some evt := by
  cases evt with
  | ScriptInitialize => rfl
  | ScriptRun c => rfl
  | InterfaceChange p c => rfl
  | BlockUpdate p => obtain ⟨pos, ty⟩ := p; cases ty <;> rfl
  | Alarm p => obtain ⟨g, a⟩ := p; cases a <;> rfl

/-- What decoding gives back for an encoded `EventResponse`: the untagged
deserializer's first variant `Ok(Value)` wrapping the encoded JSON. -/
theorem eventResponse_fromJson_toJson (resp : EventResponse) :
    EventResponse.fromJson resp.toJson = some (.Ok resp.toJson) := rfl

/-! ## Session-wide trace invariants

`goodStep ctx ctx'` relates a context to any context a dispatch function
can produce from it: the trace only grows, the extension contains no
`close`/`flush` action (those are appended by `Script.run` alone), the
number of `callInit` actions plus the occupancy of the single-use
`on_init` slot never increases, and the `on_execute` slot is never
written. -/

/-- The number of init-callback invocations recorded in a trace. -/
def initCount (tr : List Action) : Nat :=
  tr.countP fun a => match a with | .callInit => true | _ => false

/-- 1 while the single-use `on_init` slot is still occupied. -/
def initWeight (ctx : Context) : Nat := if ctx.script.on_init.isSome then 1 else 0

def noCloseFlush (tr : List Action) : Prop :=
  ∀ a ∈ tr, a ≠ Action.close ∧ a ≠ Action.flush

def goodStep (ctx ctx' : Context) : Prop :=
  (∃ d, ctx'.trace = ctx.trace ++ d ∧ noCloseFlush d)
  ∧ initCount ctx'.trace + initWeight ctx' ≤ initCount ctx.trace + initWeight ctx
  ∧ ctx'.script.on_execute = ctx.script.on_execute

theorem initCount_append (t d : List Action) :
    initCount (t ++ d) = initCount t + initCount d :=
  List.countP_append _ _ _

theorem goodStep_refl (ctx : Context) : goodStep ctx ctx :=
  ⟨⟨[], by simp, by simp [noCloseFlush]⟩, le_refl _, rfl⟩

theorem goodStep_trans {a b c : Context} (h1 : goodStep a b) (h2 : goodStep b c) :
    goodStep a c := by
  obtain ⟨⟨d1, hd1, hn1⟩, hc1, hx1⟩ := h1
  obtain ⟨⟨d2, hd2, hn2⟩, hc2, hx2⟩ := h2
  refine ⟨⟨d1 ++ d2, by rw [hd2, hd1, List.append_assoc], ?_⟩, le_trans hc2 hc1, hx2.trans hx1⟩
  intro a ha
  rcases List.mem_append.1 ha with h | h
  exacts [hn1 a h, hn2 a h]

theorem goodStep_send (ctx : Context) (j : Json) : goodStep ctx (ctx.send j) := by
  refine ⟨⟨[Action.send j], rfl, ?_⟩, ?_, rfl⟩
  · simp [noCloseFlush]
  · simp [Context.send, initCount_append, initWeight, initCount]

theorem goodStep_send_event_response (ctx : Context) (resp : EventResponse) :
    goodStep ctx (ctx.send_event_response resp) :=
  goodStep_send ctx _

theorem goodStep_mark_execute (ctx : Context) (args : List Json) :
    goodStep ctx (ctx.mark_execute args) := by
  refine ⟨⟨[Action.callExecute args], rfl, ?_⟩, ?_, rfl⟩
  · simp [noCloseFlush]
  · simp [Context.mark_execute, initCount_append, initWeight, initCount]

theorem goodStep_take_on_init (ctx : Context) (r : Except ErrorCode Unit)
    (h : ctx.script.on_init = some r) : goodStep ctx ctx.take_on_init := by
  refine ⟨⟨[Action.callInit], rfl, ?_⟩, ?_, rfl⟩
  · simp [noCloseFlush]
  · simp [Context.take_on_init, initCount_append, initWeight, initCount, h]

theorem goodStep_init_finish (ctx : Context) (frames : List Frame) :
    goodStep ctx (ctx.init_finish frames).1 := by
  rw [Context.init_finish]
  rcases hi : ctx.script.on_init with _ | res
  · exact goodStep_send_event_response ctx _
  · cases res with
    | error e =>
      exact goodStep_trans (goodStep_take_on_init ctx _ hi) (goodStep_send_event_response _ _)
    | ok u =>
      cases u
      exact goodStep_trans (goodStep_take_on_init ctx _ hi) (goodStep_send_event_response _ _)

theorem handle_event_good_of (f : Nat)
    (ihSub : ∀ ctx frames r, Context.subscribe_run f ctx frames = some r → goodStep ctx r.1) :
    ∀ ctx evt frames r, Context.handle_event (f + 1) ctx evt frames = some r →
      goodStep ctx r.1 := by
  intro ctx evt frames r h
  cases evt with
  | ScriptInitialize =>
    simp only [Context.handle_event] at h
    split at h
    · exact absurd h (by simp)
    · rename_i ctx1 fr1 e heq
      obtain rfl : r = (ctx1, fr1, .error e) := (Option.some.inj h).symm
      split at heq
      · exact ihSub _ _ _ heq
      · simp at heq
    · rename_i ctx1 fr1 heq
      obtain rfl : r = ctx1.init_finish fr1 := (Option.some.inj h).symm
      have g1 : goodStep ctx ctx1 := by
        split at heq
        · exact ihSub _ _ _ heq
        · simp only [Option.some.injEq, Prod.mk.injEq] at heq
          obtain ⟨rfl, -, -⟩ := heq
          exact goodStep_refl ctx
      exact goodStep_trans g1 (goodStep_init_finish ctx1 fr1)
  | ScriptRun content =>
    simp only [Context.handle_event] at h
    split at h
    · rename_i callback hx
      split at h
      · rename_i n hc
        obtain rfl : r = ((ctx.mark_execute content.argument).send_event_response
            (.ScriptRun n), frames, .ok ()) := (Option.some.inj h).symm
        exact goodStep_trans (goodStep_mark_execute ctx _) (goodStep_send_event_response _ _)
      · rename_i e hc
        obtain rfl : r = ((ctx.mark_execute content.argument).send_event_response
            (.Err e), frames, .ok ()) := (Option.some.inj h).symm
        exact goodStep_trans (goodStep_mark_execute ctx _) (goodStep_send_event_response _ _)
    · obtain rfl : r = (ctx.send_event_response (.ScriptRun 0), frames, .ok ()) :=
        (Option.some.inj h).symm
      exact goodStep_send_event_response ctx _
  | InterfaceChange p c =>
    simp only [Context.handle_event] at h
    obtain rfl : r = (ctx, frames, .ok ()) := (Option.some.inj h).symm
    exact goodStep_refl ctx
  | BlockUpdate p =>
    simp only [Context.handle_event] at h
    obtain rfl : r = (ctx, frames, .ok ()) := (Option.some.inj h).symm
    exact goodStep_refl ctx
  | Alarm p =>
    simp only [Context.handle_event] at h
    obtain rfl : r = (ctx, frames, .ok ()) := (Option.some.inj h).symm
    exact goodStep_refl ctx

theorem subscribe_run_good_of (f : Nat)
    (ihReq : ∀ ctx req frames r, Context.send_api_request f ctx req frames = some r →
      goodStep ctx r.1) :
    ∀ ctx frames r, Context.subscribe_run (f + 1) ctx frames = some r → goodStep ctx r.1 := by
  intro ctx frames r h
  simp only [Context.subscribe_run] at h
  split at h
  · exact absurd h (by simp)
  · rename_i ctx1 fr1 e heq
    obtain rfl : r = (ctx1, fr1, .error e) := (Option.some.inj h).symm
    exact ihReq _ _ _ _ heq
  · rename_i ctx1 fr1 v heq
    obtain rfl : r = (ctx1, fr1, .ok ()) := (Option.some.inj h).symm
    exact ihReq _ _ _ _ heq

theorem send_api_request_good_of (f : Nat)
    (ihWait : ∀ ctx frames r, Context.send_api_request_wait f ctx frames = some r →
      goodStep ctx r.1) :
    ∀ ctx req frames r, Context.send_api_request (f + 1) ctx req frames = some r →
      goodStep ctx r.1 := by
  intro ctx req frames r h
  simp only [Context.send_api_request] at h
  exact goodStep_trans (goodStep_send ctx _) (ihWait _ _ _ h)

theorem send_api_request_wait_good_of (f : Nat)
    (ihH : ∀ ctx evt frames r, Context.handle_event f ctx evt frames = some r →
      goodStep ctx r.1)
    (ihWait : ∀ ctx frames r, Context.send_api_request_wait f ctx frames = some r →
      goodStep ctx r.1) :
    ∀ ctx frames r, Context.send_api_request_wait (f + 1) ctx frames = some r →
      goodStep ctx r.1 := by
  intro ctx frames r h
  rw [Context.send_api_request_wait] at h
  split at h
  · obtain rfl : r = (_, _, .error _) := (Option.some.inj h).symm
    exact goodStep_refl ctx
  · obtain rfl : r = (_, _, .error .UnexpectedDisconnect) := (Option.some.inj h).symm
    exact goodStep_refl ctx
  · split at h
    · obtain rfl : r = (_, _, .ok _) := (Option.some.inj h).symm
      exact goodStep_refl ctx
    · obtain rfl : r = (_, _, .error (.ErrorCode _)) := (Option.some.inj h).symm
      exact goodStep_refl ctx
  · split at h
    · exact absurd h (by simp)
    · rename_i ctx1 fr1 e hh
      obtain rfl : r = (ctx1, fr1, .error e) := (Option.some.inj h).symm
      exact ihH _ _ _ _ hh
    · rename_i ctx1 fr1 hh
      exact goodStep_trans (ihH _ _ _ _ hh) (ihWait _ _ _ h)

theorem main_loop_good_of (f : Nat)
    (ihH : ∀ ctx evt frames r, Context.handle_event f ctx evt frames = some r →
      goodStep ctx r.1)
    (ihMain : ∀ ctx frames r, Context.main_loop f ctx frames = some r → goodStep ctx r.1) :
    ∀ ctx frames r, Context.main_loop (f + 1) ctx frames = some r → goodStep ctx r.1 := by
  intro ctx frames r h
  rw [Context.main_loop] at h
  split at h
  · obtain rfl : r = (_, _, .error _) := (Option.some.inj h).symm
    exact goodStep_refl ctx
  · obtain rfl : r = (_, _, .ok ()) := (Option.some.inj h).symm
    exact goodStep_refl ctx
  · split at h
    · exact absurd h (by simp)
    · rename_i ctx1 fr1 e hh
      obtain rfl : r = (ctx1, fr1, .error e) := (Option.some.inj h).symm
      exact ihH _ _ _ _ hh
    · rename_i ctx1 fr1 hh
      exact goodStep_trans (ihH _ _ _ _ hh) (ihMain _ _ _ h)

/-- The master invariant: every dispatch function only performs a
`goodStep` on the context. -/
theorem dispatch_goodStep : ∀ fuel : Nat,
    (∀ ctx evt frames r, Context.handle_event fuel ctx evt frames = some r →
      goodStep ctx r.1)
    ∧ (∀ ctx frames r, Context.subscribe_run fuel ctx frames = some r → goodStep ctx r.1)
    ∧ (∀ ctx req frames r, Context.send_api_request fuel ctx req frames = some r →
      goodStep ctx r.1)
    ∧ (∀ ctx frames r, Context.send_api_request_wait fuel ctx frames = some r →
      goodStep ctx r.1)
    ∧ (∀ ctx frames r, Context.main_loop fuel ctx frames = some r → goodStep ctx r.1) := by
  intro fuel
  induction fuel with
  | zero =>
    refine ⟨fun ctx evt frames r h => ?_, fun ctx frames r h => ?_,
      fun ctx req frames r h => ?_, fun ctx frames r h => ?_, fun ctx frames r h => ?_⟩
    · rw [Context.handle_event] at h; exact absurd h fun hc => Option.noConfusion hc
    · rw [Context.subscribe_run] at h; exact absurd h fun hc => Option.noConfusion hc
    · rw [Context.send_api_request] at h; exact absurd h fun hc => Option.noConfusion hc
    · rw [Context.send_api_request_wait] at h; exact absurd h fun hc => Option.noConfusion hc
    · rw [Context.main_loop] at h; exact absurd h fun hc => Option.noConfusion hc
  | succ f ih =>
    obtain ⟨ihH, ihSub, ihReq, ihWait, ihMain⟩ := ih
    exact ⟨handle_event_good_of f ihSub, subscribe_run_good_of f ihReq,
      send_api_request_good_of f ihWait, send_api_request_wait_good_of f ihH ihWait,
      main_loop_good_of f ihH ihMain⟩

/-! ## Branch equations used by the claims -/

theorem classify_event (j : Json) (rest : List Frame) {evt : Event}
    (he : Event.fromJson j = some evt) :
    try_next_event_or_api_result (Frame.text j :: rest) = (rest, .ok (some (.Event evt))) := by
  simp [try_next_event_or_api_result, try_next_message, he]

theorem classify_api_result (j : Json) (rest : List Frame) {w : ApiResultWrapper}
    (he : Event.fromJson j = none) (hw : ApiResultWrapper.fromJson j = some w) :
    try_next_event_or_api_result (Frame.text j :: rest) =
      (rest, .ok (some (.ApiResult w))) := by
  simp [try_next_event_or_api_result, try_next_message, he, hw]

theorem try_next_event_event (j : Json) (rest : List Frame) {evt : Event}
    (he : Event.fromJson j = some evt) :
    try_next_event (Frame.text j :: rest) = (rest, .ok (some evt)) := by
  rw [try_next_event, classify_event j rest he]

theorem try_next_event_api_result (j : Json) (rest : List Frame) {w : ApiResultWrapper}
    (he : Event.fromJson j = none) (hw : ApiResultWrapper.fromJson j = some w) :
    try_next_event (Frame.text j :: rest) = (rest, .error .UnexpectedApiResult) := by
  rw [try_next_event, classify_api_result j rest he hw]

/-- The actions `handle_event` performs for one `ScriptRun` event when an
execute callback is registered: the invocation, then the one
`EventResponse` frame its result determines. -/
def script_run_actions (callback : List Json → Except ErrorCode Int)
    (c : ScriptRunContent) : List Action :=
  [Action.callExecute c.argument,
   Action.send (eventResponseWrapperToJson (match callback c.argument with
     | .ok n => .ScriptRun n
     | .error e => .Err e))]

theorem handle_event_script_run (f : Nat) (ctx : Context) (c : ScriptRunContent)
    (fr : List Frame) {fx : List Json → Except ErrorCode Int}
    (hx : ctx.script.on_execute = some fx) :
    Context.handle_event (f + 1) ctx (.ScriptRun c) fr =
      some ({ ctx with trace := ctx.trace ++ script_run_actions fx c }, fr, .ok ()) := by
  cases hcall : fx c.argument <;>
    simp [Context.handle_event, hx, hcall, script_run_actions, Context.mark_execute,
      Context.send_event_response, Context.send]

theorem handle_event_script_init_no_exec (f : Nat) (ctx : Context) (fr : List Frame)
    (hx : ctx.script.on_execute = none) :
    Context.handle_event (f + 1) ctx .ScriptInitialize fr = some (ctx.init_finish fr) := by
  simp [Context.handle_event, hx]

/-- With an execute callback registered and the next text frame parsing
as an `ApiResult`, handling `ScriptInitialize` performs the whole
`Subscribe(ScriptRun)` round trip — the request frame is sent and the
result frame consumed — and only then runs `init_finish` (init callback
and `EventResponse`). -/
theorem handle_event_script_init_with_exec (f : Nat) (ctx : Context) (rj : Json)
    (rest : List Frame) {fx : List Json → Except ErrorCode Int} {v : Json}
    (hx : ctx.script.on_execute = some fx)
    (he : Event.fromJson rj = none)
    (hw : ApiResultWrapper.fromJson rj = some ⟨.Ok v⟩) :
    Context.handle_event (f + 4) ctx .ScriptInitialize (Frame.text rj :: rest) =
      some (({ ctx with trace :=
        ctx.trace ++ [Action.send (ApiRequest.toJson (.Subscribe .ScriptRun))] }).init_finish
        rest) := by
  have hsub : Context.subscribe_run (f + 3) ctx (Frame.text rj :: rest) =
      some ({ ctx with trace :=
        ctx.trace ++ [Action.send (ApiRequest.toJson (.Subscribe .ScriptRun))] },
        rest, .ok ()) := by
    rw [Context.subscribe_run, Context.send_api_request, Context.send_api_request_wait,
      classify_api_result rj rest he hw]
    simp [ApiResult.into_result, Context.send]
  show Context.handle_event ((f + 3) + 1) ctx .ScriptInitialize (Frame.text rj :: rest) = _
  simp [Context.handle_event, hx, hsub]

theorem init_finish_none (ctx : Context) (fr : List Frame)
    (hi : ctx.script.on_init = none) :
    ctx.init_finish fr =
      ({ ctx with trace := ctx.trace ++ [Action.send (.obj [("finish", .obj [])])] },
        fr, .ok ()) := by
  simp [Context.init_finish, hi, Context.send_event_response, Context.send,
    eventResponseWrapperToJson, EventResponse.empty, EventResponse.toJson]

theorem init_finish_ok (ctx : Context) (fr : List Frame)
    (hi : ctx.script.on_init = some (.ok ())) :
    ctx.init_finish fr =
      ({ ctx with
          script := { ctx.script with on_init := none },
          trace := ctx.trace ++
            [Action.callInit, Action.send (.obj [("finish", .obj [])])] },
        fr, .ok ()) := by
  simp [Context.init_finish, hi, Context.take_on_init, Context.send_event_response,
    Context.send, eventResponseWrapperToJson, EventResponse.empty, EventResponse.toJson]

theorem init_finish_err (ctx : Context) (fr : List Frame) {e : ErrorCode}
    (hi : ctx.script.on_init = some (.error e)) :
    ctx.init_finish fr =
      ({ ctx with
          script := { ctx.script with on_init := none },
          trace := ctx.trace ++
            [Action.callInit, Action.send (.obj [("finish", .num e.code)])] },
        fr, .error .InitializeFailed) := by
  simp [Context.init_finish, hi, Context.take_on_init, Context.send_event_response,
    Context.send, eventResponseWrapperToJson, EventResponse.toJson, ErrorCode.toJson]

/-- One step of the waiting loop on an event frame: the event is
dispatched inline by `handle_event`, and only if that handling succeeds
does the loop continue waiting; nothing is queued. -/
theorem send_api_request_wait_event_step (f : Nat) (ctx : Context) (j : Json)
    (rest : List Frame) {evt : Event} (he : Event.fromJson j = some evt) :
    Context.send_api_request_wait (f + 1) ctx (Frame.text j :: rest) =
      (match Context.handle_event f ctx evt rest with
       | none => none
       | some (ctx1, rest1, .error e) => some (ctx1, rest1, .error e)
       | some (ctx1, rest1, .ok ()) => Context.send_api_request_wait f ctx1 rest1) := by
  rw [Context.send_api_request_wait, classify_event j rest he]

/-- The waiting loop of `send_api_request` run across any stretch of
`ScriptRun` events followed by the result frame: every event is
dispatched and answered inside the loop, then the result settles the
call; the frames after the result are untouched. -/
theorem send_api_request_wait_through_runs (es : List ScriptRunContent) :
    ∀ (f : Nat) (ctx : Context) {fx : List Json → Except ErrorCode Int}
      (rj : Json) (v : Json) (rest : List Frame),
      ctx.script.on_execute = some fx →
      Event.fromJson rj = none →
      ApiResultWrapper.fromJson rj = some ⟨.Ok v⟩ →
      es.length + 1 ≤ f →
      Context.send_api_request_wait f ctx
          ((es.map fun c => Frame.text (Event.toJson (.ScriptRun c)))
            ++ Frame.text rj :: rest) =
        some ({ ctx with trace := ctx.trace ++ es.flatMap (script_run_actions fx) },
          rest, .ok v) := by
  induction es with
  | nil =>
    intro f ctx fx rj v rest hx he hw hf
    obtain ⟨g, rfl⟩ : ∃ g, f = g + 1 := ⟨f - 1, by omega⟩
    rw [Context.send_api_request_wait, List.map_nil, List.nil_append,
      classify_api_result rj rest he hw]
    simp [ApiResult.into_result]
  | cons c es ih =>
    intro f ctx fx rj v rest hx he hw hf
    obtain ⟨g, rfl⟩ : ∃ g, f = g + 1 := ⟨f - 1, by omega⟩
    obtain ⟨h, rfl⟩ : ∃ h, g = h + 1 := ⟨g - 1, by simp at hf; omega⟩
    rw [List.map_cons, List.cons_append,
      send_api_request_wait_event_step (h + 1) ctx _ _ (event_fromJson_toJson (.ScriptRun c)),
      handle_event_script_run h ctx c _ hx]
    show Context.send_api_request_wait (h + 1)
        { ctx with trace := ctx.trace ++ script_run_actions fx c }
        ((es.map fun c => Frame.text (Event.toJson (.ScriptRun c))) ++ Frame.text rj :: rest)
      = _
    rw [ih (h + 1) { ctx with trace := ctx.trace ++ script_run_actions fx c }
      rj v rest hx he hw (by simp at hf; omega)]
    simp [List.append_assoc]

/-- One step of the main loop on an event frame: dispatch, then continue. -/
theorem main_loop_event_step (f : Nat) (ctx : Context) (j : Json)
    (rest : List Frame) {evt : Event} (he : Event.fromJson j = some evt) :
    Context.main_loop (f + 1) ctx (Frame.text j :: rest) =
      (match Context.handle_event f ctx evt rest with
       | none => none
       | some (ctx1, rest1, .error e) => some (ctx1, rest1, .error e)
       | some (ctx1, rest1, .ok ()) => Context.main_loop f ctx1 rest1) := by
  rw [Context.main_loop, try_next_event_event j rest he]

/-! ## The claims -/

/-- C1: for every call to `send_api_request`, every `Event` frame that
arrives before the matching `ApiResult` is handled to completion —
dispatched by `handle_event` and its `EventResponse` sent — synchronously
inside the waiting loop, before the call returns its value; nothing is
queued.  First conjunct: one waiting-loop step on an event frame is
exactly an inline `handle_event` dispatch followed by more waiting.
Second conjunct: across any stretch of `ScriptRun` events followed by the
result frame, the call returns the result value with every event's
invocation and response already in the trace and the frames after the
result untouched. -/
theorem C1_events_before_result_handled_inline :
    (∀ (f : Nat) (ctx : Context) (j : Json) (rest : List Frame) (evt : Event),
      Event.fromJson j = some evt →
      Context.send_api_request_wait (f + 1) ctx (Frame.text j :: rest) =
        (match Context.handle_event f ctx evt rest with
         | none => none
         | some (ctx1, rest1, .error e) => some (ctx1, rest1, .error e)
         | some (ctx1, rest1, .ok ()) => Context.send_api_request_wait f ctx1 rest1))
    ∧ (∀ (f : Nat) (ctx : Context) (req : ApiRequest)
        (fx : List Json → Except ErrorCode Int) (es : List ScriptRunContent)
        (rj v : Json) (rest : List Frame),
      ctx.script.on_execute = some fx →
      Event.fromJson rj = none →
      ApiResultWrapper.fromJson rj = some ⟨.Ok v⟩ →
      es.length + 1 ≤ f →
      Context.send_api_request (f + 1) ctx req
          ((es.map fun c => Frame.text (Event.toJson (.ScriptRun c)))
            ++ Frame.text rj :: rest) =
        some ({ ctx with trace :=
            (ctx.trace ++ [Action.send req.toJson]) ++ es.flatMap (script_run_actions fx) },
          rest, .ok v)) := by
  constructor
  · intro f ctx j rest evt he
    exact send_api_request_wait_event_step f ctx j rest he
  · intro f ctx req fx es rj v rest hx he hw hf
    rw [Context.send_api_request]
    have hthrough := send_api_request_wait_through_runs es f (ctx.send req.toJson)
      rj v rest hx he hw hf
    simpa [Context.send] using hthrough

/-- The concrete execute callback and context used by the C1 witness. -/
def c1w_exec : List Json → Except ErrorCode Int := fun _ => .ok 7

def c1w_ctx : Context := ⟨⟨"w", "", "s", none, some c1w_exec⟩, []⟩

/-- Witness for C1 at a concrete input: a `queryGametime` call during
which one `scriptRun` event arrives before the result. -/
theorem C1_witness :
    c1w_ctx.script.on_execute = some c1w_exec
    ∧ Event.fromJson (.obj [("result", .str "gt")]) = none
    ∧ ApiResultWrapper.fromJson (.obj [("result", .str "gt")]) = some ⟨.Ok (.str "gt")⟩
    ∧ ([⟨[]⟩] : List ScriptRunContent).length + 1 ≤ 2
    ∧ Context.send_api_request 3 c1w_ctx .QueryGametime
        ((([⟨[]⟩] : List ScriptRunContent).map
            fun c => Frame.text (Event.toJson (.ScriptRun c)))
          ++ Frame.text (.obj [("result", .str "gt")]) :: []) =
      some ({ c1w_ctx with trace :=
              (c1w_ctx.trace ++ [Action.send (ApiRequest.toJson .QueryGametime)])
                ++ ([⟨[]⟩] : List ScriptRunContent).flatMap (script_run_actions c1w_exec) },
        [], .ok (.str "gt")) :=
  ⟨rfl, rfl, rfl, by decide,
    C1_events_before_result_handled_inline.2 2 c1w_ctx .QueryGametime c1w_exec
      [⟨[]⟩] (.obj [("result", .str "gt")]) (.str "gt") [] rfl rfl rfl (by decide)⟩

/-- C2: in the main loop (no `ApiRequest` pending) an inbound frame that
classifies as an `ApiResult` fails the session with
`UnexpectedApiResult` — it is neither dropped nor treated as an event,
and `run` surfaces the error with nothing sent. -/
theorem C2_unsolicited_api_result_fails :
    ∀ (fuel : Nat) (ctx : Context) (cfg : Script) (j : Json) (w : ApiResultWrapper)
      (rest : List Frame),
      Event.fromJson j = none →
      ApiResultWrapper.fromJson j = some w →
      Context.main_loop (fuel + 1) ctx (Frame.text j :: rest) =
        some (ctx, rest, .error .UnexpectedApiResult)
      ∧ Script.run cfg (Frame.text j :: rest) (fuel + 1) =
        some (⟨cfg, []⟩, .error .UnexpectedApiResult) := by
  intro fuel ctx cfg j w rest he hw
  have hm : ∀ c : Context, Context.main_loop (fuel + 1) c (Frame.text j :: rest) =
      some (c, rest, .error .UnexpectedApiResult) := by
    intro c
    rw [Context.main_loop, try_next_event_api_result j rest he hw]
  refine ⟨hm ctx, ?_⟩
  rw [Script.run, hm ⟨cfg, []⟩]

/-- Witness for C2: a bare `{"result": {}}` frame arriving in the main
loop. -/
theorem C2_witness :
    Event.fromJson (.obj [("result", .obj [])]) = none
    ∧ ApiResultWrapper.fromJson (.obj [("result", .obj [])]) = some ⟨.Ok (.obj [])⟩
    ∧ Context.main_loop 5 ⟨⟨"w", "", "s", none, none⟩, []⟩
        [Frame.text (.obj [("result", .obj [])])] =
      some (⟨⟨"w", "", "s", none, none⟩, []⟩, [], .error .UnexpectedApiResult)
    ∧ Script.run ⟨"w", "", "s", none, none⟩ [Frame.text (.obj [("result", .obj [])])] 5 =
      some (⟨⟨"w", "", "s", none, none⟩, []⟩, .error .UnexpectedApiResult) :=
  ⟨rfl, rfl,
    (C2_unsolicited_api_result_fails 4 ⟨⟨"w", "", "s", none, none⟩, []⟩
      ⟨"w", "", "s", none, none⟩ (.obj [("result", .obj [])]) ⟨.Ok (.obj [])⟩ []
      rfl rfl).1,
    (C2_unsolicited_api_result_fails 4 ⟨⟨"w", "", "s", none, none⟩, []⟩
      ⟨"w", "", "s", none, none⟩ (.obj [("result", .obj [])]) ⟨.Ok (.obj [])⟩ []
      rfl rfl).2⟩

/-- C3: classification of an inbound text frame tries the `Event` parse
first, then the `ApiResult` parse, and fails the session with
`InvalidServerMessage` when both fail (first conjunct: the exact
trichotomy, with the `Event` parse taking precedence); the second
conjunct shows the both-fail case is session-fatal in the main loop. -/
theorem C3_classification_order :
    ∀ (j : Json) (rest : List Frame),
      (try_next_event_or_api_result (Frame.text j :: rest) =
        (rest, match Event.fromJson j with
          | some evt => .ok (some (.Event evt))
          | none =>
            match ApiResultWrapper.fromJson j with
            | some res => .ok (some (.ApiResult res))
            | none => .error .InvalidServerMessage))
      ∧ (Event.fromJson j = none → ApiResultWrapper.fromJson j = none →
          ∀ (fuel : Nat) (ctx : Context),
            Context.main_loop (fuel + 1) ctx (Frame.text j :: rest) =
              some (ctx, rest, .error .InvalidServerMessage)) := by
  intro j rest
  constructor
  · cases hE : Event.fromJson j with
    | some evt => simpa using classify_event j rest hE
    | none =>
      cases hW : ApiResultWrapper.fromJson j with
      | some w => simpa using classify_api_result j rest hE hW
      | none => simp [try_next_event_or_api_result, try_next_message, hE, hW]
  · intro hE hW fuel ctx
    have hc : try_next_event (Frame.text j :: rest) = (rest, .error .InvalidServerMessage) := by
      rw [try_next_event]
      rw [show try_next_event_or_api_result (Frame.text j :: rest) =
        (rest, .error .InvalidServerMessage) by
          simp [try_next_event_or_api_result, try_next_message, hE, hW]]
    rw [Context.main_loop, hc]

/-- Witness for C3: `Json.null` (the parse tree of any text that matches
neither shape) fails both parses and fails the session. -/
theorem C3_witness :
    Event.fromJson Json.null = none
    ∧ ApiResultWrapper.fromJson Json.null = none
    ∧ try_next_event_or_api_result [Frame.text Json.null] =
      ([], .error .InvalidServerMessage)
    ∧ Context.main_loop 5 ⟨⟨"w", "", "s", none, none⟩, []⟩ [Frame.text Json.null] =
      some (⟨⟨"w", "", "s", none, none⟩, []⟩, [], .error .InvalidServerMessage) :=
  ⟨rfl, rfl, (C3_classification_order Json.null []).1,
    (C3_classification_order Json.null []).2 rfl rfl 4 ⟨⟨"w", "", "s", none, none⟩, []⟩⟩

/-- C4: when a `ScriptInitialize` event is handled with an execute
callback registered, the `Subscribe(ScriptRun)` request is sent and its
`ApiResult` frame consumed — a full round trip through the correlator —
strictly before the `EventResponse` for the `ScriptInitialize` event
itself.  First conjunct: handling equals the completed round trip
(request frame in the trace, result frame consumed) followed by
`init_finish`, which alone emits the `EventResponse`.  Second conjunct
(no init callback): the explicit trace, with the subscribe request frame
strictly before the `EventResponse` frame. -/
theorem C4_subscribe_round_trip_before_response :
    ∀ (f : Nat) (ctx : Context) (fx : List Json → Except ErrorCode Int)
      (rj v : Json) (rest : List Frame),
      ctx.script.on_execute = some fx →
      Event.fromJson rj = none →
      ApiResultWrapper.fromJson rj = some ⟨.Ok v⟩ →
      (Context.handle_event (f + 4) ctx .ScriptInitialize (Frame.text rj :: rest) =
        some (({ ctx with trace :=
          ctx.trace ++ [Action.send (ApiRequest.toJson (.Subscribe .ScriptRun))] }).init_finish
          rest))
      ∧ (ctx.script.on_init = none →
        Context.handle_event (f + 4) ctx .ScriptInitialize (Frame.text rj :: rest) =
          some ({ ctx with trace := ctx.trace ++
              [Action.send (ApiRequest.toJson (.Subscribe .ScriptRun)),
               Action.send (.obj [("finish", .obj [])])] },
            rest, .ok ())) := by
  intro f ctx fx rj v rest hx he hw
  refine ⟨handle_event_script_init_with_exec f ctx rj rest hx he hw, fun hi => ?_⟩
  rw [handle_event_script_init_with_exec f ctx rj rest hx he hw,
    init_finish_none { ctx with trace :=
      ctx.trace ++ [Action.send (ApiRequest.toJson (.Subscribe .ScriptRun))] } rest hi]
  simp

/-- The concrete execute callback and context used by the C4 witness. -/
def c4w_exec : List Json → Except ErrorCode Int := fun _ => .ok 1

def c4w_ctx : Context := ⟨⟨"w", "", "s", none, some c4w_exec⟩, []⟩

/-- Witness for C4: subscription result `{"result": {}}` arriving right
after the subscribe request, no init callback. -/
theorem C4_witness :
    c4w_ctx.script.on_execute = some c4w_exec
    ∧ Event.fromJson (.obj [("result", .obj [])]) = none
    ∧ ApiResultWrapper.fromJson (.obj [("result", .obj [])]) = some ⟨.Ok (.obj [])⟩
    ∧ c4w_ctx.script.on_init = none
    ∧ Context.handle_event 4 c4w_ctx .ScriptInitialize
        [Frame.text (.obj [("result", .obj [])])] =
      some ({ c4w_ctx with trace := c4w_ctx.trace ++
          [Action.send (ApiRequest.toJson (.Subscribe .ScriptRun)),
           Action.send (.obj [("finish", .obj [])])] },
        [], .ok ()) :=
  ⟨rfl, rfl, rfl, rfl,
    (C4_subscribe_round_trip_before_response 0 c4w_ctx c4w_exec
      (.obj [("result", .obj [])]) (.obj []) [] rfl rfl rfl).2 rfl⟩

/-- An execute invocation occurring strictly before some later init
invocation in a trace. -/
def exec_before_init : List Action → Bool
  | [] => false
  | .callExecute _ :: rest =>
    (rest.any fun a => match a with | .callInit => true | _ => false) || exec_before_init rest
  | _ :: rest => exec_before_init rest

def zero_exec : List Json → Except ErrorCode Int := fun _ => .ok 0

/-- The host sends a `scriptRun` event before `scriptInitialize`. -/
def c5_script : Script :=
  ⟨"example", "", "ws://localhost:37265/", some (.ok ()), some zero_exec⟩

def c5_frames : List Frame :=
  [Frame.text (Event.toJson (.ScriptRun ⟨[]⟩)),
   Frame.text (Event.toJson .ScriptInitialize),
   Frame.text (.obj [("result", .obj [])])]

def c5_trace : List Action :=
  [Action.callExecute [],
   Action.send (.obj [("finish", .obj [("result", .num 0)])]),
   Action.send (ApiRequest.toJson (.Subscribe .ScriptRun)),
   Action.callInit,
   Action.send (.obj [("finish", .obj [])]),
   Action.close, Action.flush]

/-- C5 counterexample: on the inbound sequence `scriptRun`,
`scriptInitialize`, subscription result, the session completes normally
and the execute callback is dispatched for the `ScriptRun` event before
the init callback is ever invoked — refuting "it is invoked before any
ScriptRun event is dispatched" as a property of every inbound
sequence. -/
theorem C5_counterexample :
    (Script.run c5_script c5_frames 10).map (fun p => (p.1.trace, p.2)) =
      some (c5_trace, .ok ())
    ∧ exec_before_init c5_trace = true :=
  ⟨rfl, rfl⟩

/-- C5 (amended): over every inbound sequence, the init callback is
invoked at most once (the single-use slot is taken on first use), and,
when an execute callback is registered, any init invocation happens only
after the auto-subscription request has completed (handling
`ScriptInitialize` is exactly the completed `subscribe_run` round trip
followed by `init_finish`, the only place the init slot is read).  The
"before any ScriptRun dispatch" part of the original claim is dropped:
the counterexample shows the code does not enforce it. -/
theorem C5_amended_init_once_and_after_subscription :
    (∀ (cfg : Script) (frames : List Frame) (fuel : Nat) (ctx : Context)
      (out : Except Error Unit),
      Script.run cfg frames fuel = some (ctx, out) → initCount ctx.trace ≤ 1)
    ∧ (∀ (f : Nat) (ctx : Context) (frames : List Frame),
      ctx.script.on_execute.isSome = true →
      Context.handle_event (f + 1) ctx .ScriptInitialize frames =
        (match Context.subscribe_run f ctx frames with
         | none => none
         | some (ctx1, fr1, .error e) => some (ctx1, fr1, .error e)
         | some (ctx1, fr1, .ok ()) => some (ctx1.init_finish fr1))) := by
  constructor
  · intro cfg frames fuel ctx out h
    rw [Script.run] at h
    rcases hm : Context.main_loop fuel ⟨cfg, []⟩ frames with _ | ⟨ctx0, fr0, out0⟩
    · rw [hm] at h; exact absurd h (by simp)
    · rw [hm] at h
      obtain ⟨-, hcount, -⟩ := (dispatch_goodStep fuel).2.2.2.2 _ _ _ hm
      dsimp only at hcount
      have hz : initCount ([] : List Action) = 0 := rfl
      have hwt : initWeight ⟨cfg, []⟩ ≤ 1 := by
        unfold initWeight; split <;> omega
      have h1 : initCount ctx0.trace ≤ 1 := by omega
      cases out0 with
      | error e =>
        obtain rfl : ctx = ctx0 := by
          have := Option.some.inj h
          exact (congrArg Prod.fst this).symm
        exact h1
      | ok u =>
        cases u
        obtain rfl : ctx = { ctx0 with trace := ctx0.trace ++ [Action.close, Action.flush] } := by
          have := Option.some.inj h
          exact (congrArg Prod.fst this).symm
        have hcf : initCount (ctx0.trace ++ [Action.close, Action.flush]) =
            initCount ctx0.trace := by
          simp [initCount_append, initCount, List.countP_cons]
        dsimp only
        rw [hcf]
        exact h1
  · intro f ctx frames hx
    simp [Context.handle_event, hx]

def c5w_script : Script := ⟨"w", "", "s", some (.ok ()), none⟩

def c5w_ctx : Context := ⟨⟨"w", "", "s", none, some zero_exec⟩, []⟩

/-- Witness for C5 (amended), discharging both conjuncts at concrete
inputs: a completed session whose trace holds exactly one `callInit`,
and a `ScriptInitialize` handling with an execute callback registered
(here the subscription wait hits the end of the stream, so the round
trip fails and the init callback is never reached). -/
theorem C5_witness :
    Script.run c5w_script [Frame.text (Event.toJson .ScriptInitialize)] 5 =
      some (⟨{ c5w_script with on_init := none },
        [Action.callInit, Action.send (.obj [("finish", .obj [])]),
         Action.close, Action.flush]⟩, .ok ())
    ∧ initCount [Action.callInit, Action.send (.obj [("finish", .obj [])]),
        Action.close, Action.flush] ≤ 1
    ∧ c5w_ctx.script.on_execute.isSome = true
    ∧ Context.handle_event 5 c5w_ctx .ScriptInitialize [] =
      some (⟨c5w_ctx.script,
        [Action.send (ApiRequest.toJson (.Subscribe .ScriptRun))]⟩,
        [], .error .UnexpectedDisconnect) :=
  ⟨rfl,
    C5_amended_init_once_and_after_subscription.1 c5w_script
      [Frame.text (Event.toJson .ScriptInitialize)] 5 _ _ rfl,
    rfl,
    C5_amended_init_once_and_after_subscription.2 4 c5w_ctx [] rfl⟩

/-- C6: an init callback returning `ErrorCode` `e` during
`ScriptInitialize` handling yields exactly one `EventResponse`, carrying
`e`, the session fails with `InitializeFailed`, and no frame is sent
after that `EventResponse` (in particular no close/flush and nothing for
the remaining inbound frames).  First conjunct: no execute callback;
second: execute callback registered, with the subscription round trip
(an `ApiRequest`, not an `EventResponse`) preceding the single error
response. -/
theorem C6_init_error_terminates :
    ∀ (cfg : Script) (e : ErrorCode) (rest : List Frame) (f : Nat),
      cfg.on_init = some (.error e) →
      (cfg.on_execute = none →
        Script.run cfg (Frame.text (Event.toJson .ScriptInitialize) :: rest) (f + 2) =
          some (⟨{ cfg with on_init := none },
            [Action.callInit, Action.send (.obj [("finish", .num e.code)])]⟩,
            .error .InitializeFailed))
      ∧ (∀ (fx : List Json → Except ErrorCode Int) (rj v : Json),
        cfg.on_execute = some fx →
        Event.fromJson rj = none →
        ApiResultWrapper.fromJson rj = some ⟨.Ok v⟩ →
        Script.run cfg
            (Frame.text (Event.toJson .ScriptInitialize) :: Frame.text rj :: rest)
            (f + 6) =
          some (⟨{ cfg with on_init := none },
            [Action.send (ApiRequest.toJson (.Subscribe .ScriptRun)), Action.callInit,
             Action.send (.obj [("finish", .num e.code)])]⟩,
            .error .InitializeFailed)) := by
  intro cfg e rest f hi
  constructor
  · intro hx
    have hm : Context.main_loop ((f + 1) + 1) ⟨cfg, []⟩
        (Frame.text (Event.toJson .ScriptInitialize) :: rest) =
        some (⟨{ cfg with on_init := none },
          [Action.callInit, Action.send (.obj [("finish", .num e.code)])]⟩,
          rest, .error .InitializeFailed) := by
      rw [main_loop_event_step (f + 1) ⟨cfg, []⟩ _ rest
          (event_fromJson_toJson .ScriptInitialize),
        handle_event_script_init_no_exec f ⟨cfg, []⟩ rest hx,
        init_finish_err ⟨cfg, []⟩ rest hi]
      simp
    show Script.run cfg (Frame.text (Event.toJson .ScriptInitialize) :: rest)
      ((f + 1) + 1) = _
    rw [Script.run, hm]
  · intro fx rj v hx he hw
    have hm : Context.main_loop ((f + 1 + 4) + 1) ⟨cfg, []⟩
        (Frame.text (Event.toJson .ScriptInitialize) :: Frame.text rj :: rest) =
        some (⟨{ cfg with on_init := none },
          [Action.send (ApiRequest.toJson (.Subscribe .ScriptRun)), Action.callInit,
           Action.send (.obj [("finish", .num e.code)])]⟩,
          rest, .error .InitializeFailed) := by
      rw [main_loop_event_step (f + 1 + 4) ⟨cfg, []⟩ _ _
          (event_fromJson_toJson .ScriptInitialize),
        handle_event_script_init_with_exec (f + 1) ⟨cfg, []⟩ rj rest hx he hw,
        init_finish_err { (⟨cfg, []⟩ : Context) with trace :=
          ([] : List Action) ++ [Action.send (ApiRequest.toJson (.Subscribe .ScriptRun))] }
          rest hi]
      simp
    show Script.run cfg
      (Frame.text (Event.toJson .ScriptInitialize) :: Frame.text rj :: rest)
      ((f + 1 + 4) + 1) = _
    rw [Script.run, hm]

def c6w_script : Script := ⟨"w", "", "s", some (.error .GeneralError), none⟩

/-- Witness for C6: init callback failing with `GeneralError` and one
extra inbound frame that is never processed. -/
theorem C6_witness :
    c6w_script.on_init = some (.error .GeneralError)
    ∧ c6w_script.on_execute = none
    ∧ Script.run c6w_script
        [Frame.text (Event.toJson .ScriptInitialize),
         Frame.text (Event.toJson (.ScriptRun ⟨[]⟩))] 5 =
      some (⟨{ c6w_script with on_init := none },
        [Action.callInit, Action.send (.obj [("finish", .num (-1))])]⟩,
        .error .InitializeFailed) :=
  ⟨rfl, rfl,
    (C6_init_error_terminates c6w_script .GeneralError
      [Frame.text (Event.toJson (.ScriptRun ⟨[]⟩))] 3 rfl).1 rfl⟩

/-- C7: handling a `ScriptRun` event: a registered execute callback
returning `Ok n` yields the ScriptRun-flavoured success response
`{"finish":{"result":n}}`; returning `Err e` yields a failure response
carrying `e` and the outcome is non-fatal (`.ok ()`), so the next
`ScriptRun` is processed normally (fourth conjunct); with no callback a
success response with integer result 0 is sent. -/
theorem C7_script_run_semantics :
    ∀ (f : Nat) (ctx : Context) (c : ScriptRunContent)
      (fx : List Json → Except ErrorCode Int) (fr : List Frame),
      (ctx.script.on_execute = some fx →
        ∀ n : Int, fx c.argument = .ok n →
        Context.handle_event (f + 1) ctx (.ScriptRun c) fr =
          some ({ ctx with trace := ctx.trace ++
              [Action.callExecute c.argument,
               Action.send (.obj [("finish", .obj [("result", .num n)])])] },
            fr, .ok ()))
      ∧ (ctx.script.on_execute = some fx →
        ∀ e : ErrorCode, fx c.argument = .error e →
        Context.handle_event (f + 1) ctx (.ScriptRun c) fr =
          some ({ ctx with trace := ctx.trace ++
              [Action.callExecute c.argument,
               Action.send (.obj [("finish", .num e.code)])] },
            fr, .ok ()))
      ∧ (ctx.script.on_execute = none →
        Context.handle_event (f + 1) ctx (.ScriptRun c) fr =
          some ({ ctx with trace := ctx.trace ++
              [Action.send (.obj [("finish", .obj [("result", .num 0)])])] },
            fr, .ok ()))
      ∧ (∀ (c2 : ScriptRunContent) (e : ErrorCode) (n : Int),
        ctx.script.on_execute = some fx →
        fx c.argument = .error e → fx c2.argument = .ok n →
        Context.main_loop (f + 1 + 1 + 1) ctx
            [Frame.text (Event.toJson (.ScriptRun c)),
             Frame.text (Event.toJson (.ScriptRun c2))] =
          some ({ ctx with trace := ctx.trace ++
              [Action.callExecute c.argument,
               Action.send (.obj [("finish", .num e.code)]),
               Action.callExecute c2.argument,
               Action.send (.obj [("finish", .obj [("result", .num n)])])] },
            [], .ok ())) := by
  intro f ctx c fx fr
  refine ⟨?_, ?_, ?_, ?_⟩
  · intro hx n hc
    rw [handle_event_script_run f ctx c fr hx]
    simp [script_run_actions, hc, eventResponseWrapperToJson, EventResponse.toJson]
  · intro hx e hc
    rw [handle_event_script_run f ctx c fr hx]
    simp [script_run_actions, hc, eventResponseWrapperToJson, EventResponse.toJson,
      ErrorCode.toJson]
  · intro hx
    simp [Context.handle_event, hx, Context.send_event_response, Context.send,
      eventResponseWrapperToJson, EventResponse.toJson]
  · intro c2 e n hx h1 h2
    rw [main_loop_event_step (f + 1 + 1) ctx _ _ (event_fromJson_toJson (.ScriptRun c)),
      handle_event_script_run (f + 1) ctx c _ hx]
    show Context.main_loop (f + 1 + 1)
        { ctx with trace := ctx.trace ++ script_run_actions fx c }
        [Frame.text (Event.toJson (.ScriptRun c2))] = _
    rw [main_loop_event_step (f + 1)
        { ctx with trace := ctx.trace ++ script_run_actions fx c } _ _
        (event_fromJson_toJson (.ScriptRun c2)),
      handle_event_script_run f
        { ctx with trace := ctx.trace ++ script_run_actions fx c } c2 _ hx]
    show Context.main_loop (f + 1)
        { ctx with trace := (ctx.trace ++ script_run_actions fx c)
          ++ script_run_actions fx c2 } [] = _
    rw [Context.main_loop]
    simp [try_next_event, try_next_event_or_api_result, try_next_message,
      script_run_actions, h1, h2, eventResponseWrapperToJson, EventResponse.toJson,
      ErrorCode.toJson, List.append_assoc]

def c7w_exec : List Json → Except ErrorCode Int :=
  fun args => match args with
    | [] => .error .ArgumentInvalid
    | _ => .ok 2

def c7w_ctx : Context := ⟨⟨"w", "", "s", none, some c7w_exec⟩, []⟩

/-- Witness for C7: a callback failing on empty arguments and succeeding
otherwise, then a no-callback context. -/
theorem C7_witness :
    c7w_ctx.script.on_execute = some c7w_exec
    ∧ c7w_exec [Json.num 9] = .ok 2
    ∧ c7w_exec [] = .error .ArgumentInvalid
    ∧ (⟨⟨"w", "", "s", none, none⟩, []⟩ : Context).script.on_execute = none
    ∧ Context.handle_event 3 c7w_ctx (.ScriptRun ⟨[Json.num 9]⟩) [] =
      some ({ c7w_ctx with trace := c7w_ctx.trace ++
          [Action.callExecute [Json.num 9],
           Action.send (.obj [("finish", .obj [("result", .num 2)])])] },
        [], .ok ())
    ∧ Context.handle_event 3 (⟨⟨"w", "", "s", none, none⟩, []⟩ : Context)
        (.ScriptRun ⟨[]⟩) [] =
      some ({ (⟨⟨"w", "", "s", none, none⟩, []⟩ : Context) with trace :=
          ([] : List Action) ++ [Action.send (.obj [("finish", .obj [("result", .num 0)])])] },
        [], .ok ())
    ∧ Context.main_loop 5 c7w_ctx
        [Frame.text (Event.toJson (.ScriptRun ⟨[]⟩)),
         Frame.text (Event.toJson (.ScriptRun ⟨[Json.num 9]⟩))] =
      some ({ c7w_ctx with trace := c7w_ctx.trace ++
          [Action.callExecute [],
           Action.send (.obj [("finish", .num (-2))]),
           Action.callExecute [Json.num 9],
           Action.send (.obj [("finish", .obj [("result", .num 2)])])] },
        [], .ok ()) :=
  ⟨rfl, rfl, rfl, rfl,
    (C7_script_run_semantics 2 c7w_ctx ⟨[Json.num 9]⟩ c7w_exec []).1 rfl 2 rfl,
    (C7_script_run_semantics 2 (⟨⟨"w", "", "s", none, none⟩, []⟩ : Context)
      ⟨[]⟩ c7w_exec []).2.2.1 rfl,
    (C7_script_run_semantics 2 c7w_ctx ⟨[]⟩ c7w_exec []).2.2.2 ⟨[Json.num 9]⟩
      .ArgumentInvalid 2 rfl rfl rfl⟩

def c8_script : Script := ⟨"example", "", "ws://localhost:37265/", none, none⟩

/-- C8 counterexample: a binary frame makes the session fail with
`InvalidServerMessage`, and `run` surfaces the error with an empty
action trace — no close and no flush were performed before surfacing,
because the `?` on `main_loop` returns before the close/flush lines. -/
theorem C8_counterexample :
    Script.run c8_script [Frame.binary] 5 =
      some (⟨c8_script, []⟩, .error .InvalidServerMessage)
    ∧ Action.close ∉ (⟨c8_script, []⟩ : Context).trace
    ∧ Action.flush ∉ (⟨c8_script, []⟩ : Context).trace :=
  ⟨rfl, by simp, by simp⟩

/-- C8 (amended): every non-recoverable error bubbles to the top of the
main loop and terminates the session, and `run` surfaces it to its
caller directly — the clean close and flush of the channel are performed
only on orderly (non-error) termination, never on the error path. -/
theorem C8_amended_error_surfaced_without_close :
    ∀ (cfg : Script) (frames : List Frame) (fuel : Nat),
      (∀ (ctx : Context) (e : Error),
        Script.run cfg frames fuel = some (ctx, .error e) →
          Action.close ∉ ctx.trace ∧ Action.flush ∉ ctx.trace)
      ∧ (∀ ctx : Context,
        Script.run cfg frames fuel = some (ctx, .ok ()) →
          ∃ tr, ctx.trace = tr ++ [Action.close, Action.flush]) := by
  intro cfg frames fuel
  constructor
  · intro ctx e h
    rw [Script.run] at h
    rcases hm : Context.main_loop fuel ⟨cfg, []⟩ frames with _ | ⟨ctx0, fr0, out0⟩
    · rw [hm] at h; exact absurd h (by simp)
    · rw [hm] at h
      obtain ⟨⟨d, hd, hn⟩, -, -⟩ := (dispatch_goodStep fuel).2.2.2.2 _ _ _ hm
      dsimp only at hd
      cases out0 with
      | error e0 =>
        obtain rfl : ctx = ctx0 := (congrArg Prod.fst (Option.some.inj h)).symm
        refine ⟨fun hmem => ?_, fun hmem => ?_⟩
        · rw [hd] at hmem; simp at hmem; exact (hn _ hmem).1 rfl
        · rw [hd] at hmem; simp at hmem; exact (hn _ hmem).2 rfl
      | ok u =>
        cases u
        exact Except.noConfusion (congrArg Prod.snd (Option.some.inj h))
  · intro ctx h
    rw [Script.run] at h
    rcases hm : Context.main_loop fuel ⟨cfg, []⟩ frames with _ | ⟨ctx0, fr0, out0⟩
    · rw [hm] at h; exact absurd h (by simp)
    · rw [hm] at h
      cases out0 with
      | error e0 => exact Except.noConfusion (congrArg Prod.snd (Option.some.inj h))
      | ok u =>
        cases u
        obtain rfl : ctx = { ctx0 with trace := ctx0.trace ++ [Action.close, Action.flush] } :=
          (congrArg Prod.fst (Option.some.inj h)).symm
        exact ⟨ctx0.trace, rfl⟩

/-- Witness for C8 (amended): the error path at a binary frame, and the
orderly path on an immediately ending stream. -/
theorem C8_witness :
    (Action.close ∉ (⟨c8_script, []⟩ : Context).trace
      ∧ Action.flush ∉ (⟨c8_script, []⟩ : Context).trace)
    ∧ Script.run c8_script ([] : List Frame) 1 =
      some (⟨c8_script, [Action.close, Action.flush]⟩, .ok ())
    ∧ ∃ tr, (⟨c8_script, [Action.close, Action.flush]⟩ : Context).trace =
      tr ++ [Action.close, Action.flush] :=
  ⟨(C8_amended_error_surfaced_without_close c8_script [Frame.binary] 5).1
      ⟨c8_script, []⟩ .InvalidServerMessage rfl,
    rfl,
    (C8_amended_error_surfaced_without_close c8_script [] 1).2
      ⟨c8_script, [Action.close, Action.flush]⟩ rfl⟩

/-- C9 counterexample: `EventResponse` is `#[serde(untagged)]` with
`Ok(Value)` declared first, and a `Value` deserializes from any JSON, so
decoding the encoding of `ScriptRun {result: 1}` yields
`Ok({"result":1})`, not the original variant — the encode-then-decode
round trip is not the identity on `EventResponse`. -/
theorem C9_counterexample :
    EventResponse.fromJson (EventResponse.toJson (EventResponse.ScriptRun 1)) ≠
      some (EventResponse.ScriptRun 1) :=
  fun h => EventResponse.noConfusion (Option.some.inj h)

/-- C9 (amended): encode-then-decode is the identity for every
`ApiRequest` and every `Event` variant; for `EventResponse` decoding
yields the untagged `Ok` variant wrapping exactly the encoded JSON, so
the wire form (not the variant) survives the round trip. -/
theorem C9_amended_round_trip :
    (∀ req : ApiRequest, ApiRequest.fromJson req.toJson = some req)
    ∧ (∀ evt : Event, Event.fromJson evt.toJson = some evt)
    ∧ (∀ resp : EventResponse,
      EventResponse.fromJson resp.toJson = some (.Ok resp.toJson)
      ∧ (EventResponse.Ok resp.toJson).toJson = resp.toJson) :=
  ⟨apiRequest_fromJson_toJson, event_fromJson_toJson, fun _ => ⟨rfl, rfl⟩⟩

/-- C10: `InterfaceChange`, `BlockUpdate` and `Alarm` events are handled
as fire-and-forget: `handle_event` returns success with the context (so
its trace: no frame sent, no request issued) and the frames unchanged,
and the main loop just moves on to the next inbound frame. -/
theorem C10_fire_and_forget :
    ∀ (f : Nat) (ctx : Context) (p : InterfaceChangeParam) (c : InterfaceChangeContent)
      (bp : BlockUpdateParam) (ap : AlarmParam) (fr : List Frame),
      Context.handle_event (f + 1) ctx (.InterfaceChange p c) fr = some (ctx, fr, .ok ())
      ∧ Context.handle_event (f + 1) ctx (.BlockUpdate bp) fr = some (ctx, fr, .ok ())
      ∧ Context.handle_event (f + 1) ctx (.Alarm ap) fr = some (ctx, fr, .ok ())
      ∧ Context.main_loop (f + 1 + 1) ctx
          (Frame.text (Event.toJson (.InterfaceChange p c)) :: fr) =
        Context.main_loop (f + 1) ctx fr
      ∧ Context.main_loop (f + 1 + 1) ctx
          (Frame.text (Event.toJson (.BlockUpdate bp)) :: fr) =
        Context.main_loop (f + 1) ctx fr
      ∧ Context.main_loop (f + 1 + 1) ctx (Frame.text (Event.toJson (.Alarm ap)) :: fr) =
        Context.main_loop (f + 1) ctx fr := by
  intro f ctx p c bp ap fr
  refine ⟨rfl, rfl, rfl, ?_, ?_, ?_⟩
  · rw [main_loop_event_step (f + 1) ctx _ fr (event_fromJson_toJson (.InterfaceChange p c))]
    rfl
  · rw [main_loop_event_step (f + 1) ctx _ fr (event_fromJson_toJson (.BlockUpdate bp))]
    rfl
  · rw [main_loop_event_step (f + 1) ctx _ fr (event_fromJson_toJson (.Alarm ap))]
    rfl

end Rcu
